import Mathlib

/-!
Shallow embedding of sql/ndb_ndbapi_util.cc (MySQL NDB adapter utilities).

Modelling conventions:
* Byte buffers (the caller-supplied 512-byte pack buffer, the source string)
  are total functions Nat → Nat giving the byte at each index; memcpy and
  int2store are embedded as pointwise updates.
* The external dictionary service (NdbDictionary::Dictionary) is a record of
  the query results this file observes: each listObjects call is an
  Option (List Element) (none models a nonzero return, i.e. failure), the
  secondary per-object lookups (getUndofile / getDatafile / getTablespace by
  id) are functions from the query key to the observed answer, and the
  dictionary error code observed after the secondary tablespace lookup is
  carried alongside the resolved name.
* The naming-convention predicates (ndb_name_is_temp and friends, declared in
  sql/ndb_name_util.h, external to this file) are abstract boolean
  predicates bundled in NameRules.
* std::unordered_set is modelled as a duplicate-free insertion list
  (insertSet); std::vector push_back is list append.
-/

namespace NdbUtil

/-- NdbDictionary::Column::ArrayType (the three storage kinds used here). -/
inductive ArrayType where
  | ArrayTypeFixed
  | ArrayTypeShortVar
  | ArrayTypeMediumVar
  deriving DecidableEq, Repr

/-- NdbDictionary::Column::Type values this file inspects. -/
inductive ColumnType where
  | Bigunsigned
  | Blob
  | Text
  | Unsigned
  | Varchar
  deriving DecidableEq, Repr

/-- The attributes of NdbDictionary::Column read by this file.
getDefaultValue() returning nullptr is modelled as defaultValue = none. -/
structure Column where
  getLength : Nat
  getArrayType : ArrayType
  getType : ColumnType
  getNullable : Bool
  getPrimaryKey : Bool
  getAutoIncrement : Bool
  defaultValue : Option (List Nat)
  deriving DecidableEq, Repr

/-- memcpy(buf + off, str, sz): bytes [off, off+sz) now come from str,
all other positions keep their previous contents. -/
def memcpy (buf : Nat → Nat) (off : Nat) (str : Nat → Nat) (sz : Nat) :
    Nat → Nat :=
  fun i => if off ≤ i ∧ i - off < sz then str (i - off) else buf i

/-- int2store(buf, v): store the 16-bit value v little-endian at buf[0],
buf[1]; other positions unchanged.  v is the already-truncated uint16. -/
def int2store (buf : Nat → Nat) (v : Nat) : Nat → Nat :=
  fun i => if i = 0 then v % 256 else if i = 1 then v / 256 % 256 else buf i

/-- ndb_pack_varchar (sql/ndb_ndbapi_util.cc, lines 33-57).
The C++ function fetches the column from the table by index (a plain getter)
and then switches on the column's array type; we take the column directly.
The assert on line 41 (col->getLength() <= sizeof(buf)) is compiled out in
release builds and performs no error handling; it is not part of the
computation.  (uchar)sz is sz % 256, (uint16)sz is sz % 65536. -/
def ndb_pack_varchar (col : Column) (buf : Nat → Nat) (str : Nat → Nat)
    (sz : Nat) : Nat → Nat :=
  match col.getArrayType with
  | ArrayType.ArrayTypeFixed =>
      memcpy buf 0 str sz
  | ArrayType.ArrayTypeShortVar =>
      memcpy (fun i => if i = 0 then sz % 256 else buf i) 1 str sz
  | ArrayType.ArrayTypeMediumVar =>
      memcpy (int2store buf (sz % 65536)) 2 str sz

/-- NdbDictionary::Object::State values (lifecycle states of dictionary
objects). -/
inductive ObjState where
  | StateUndefined
  | StateOffline
  | StateBuilding
  | StateDropping
  | StateOnline
  | ObsoleteStateBackup
  | StateBroken
  deriving DecidableEq, Repr

/-- NdbDictionary::Dictionary::List::Element: the fields read by this file. -/
structure Element where
  name : String
  database : String
  state : ObjState
  deriving DecidableEq, Repr

/-- The three pure naming-convention predicates from sql/ndb_name_util.h
(ndb_name_is_temp, ndb_name_is_blob_prefix, ndb_name_is_index_stat),
external collaborators kept abstract. -/
structure NameRules where
  is_temp : String → Bool
  is_blob : String → Bool
  is_index_stat : String → Bool

/-- The dictionary service as observed by this file: the outcome of each
listObjects call (none = nonzero return code = failure), the secondary
per-object resolutions, and for getTablespace-by-id the pair of the resolved
name and the dictionary error code observed right after the call. -/
structure Dictionary where
  listLogfileGroups : Option (List Element)
  listTablespaces : Option (List Element)
  listUserTables : Option (List Element)
  listUndofiles : Option (List Element)
  listDatafiles : Option (List Element)
  getUndofileGroup : String → String
  getDatafileTablespace : String → String
  getTablespaceById : Nat → String × Nat

/-- The attributes of an NdbDictionary::Table handle read by this file. -/
structure TableHandle where
  getNoOfPrimaryKeys : Nat
  getColumnByName : String → Option Column
  getTablespaceName : String
  getTablespaceId : Option Nat
  getExtraMetadataResult : Int
  extraMetadataVersion : Nat

/-- ndb_get_extra_metadata_version (lines 60-81): if
getExtraMetadata returns nonzero, return 0; otherwise free the unpacked
data and return the version. -/
def ndb_get_extra_metadata_version (ndbtab : TableHandle) : Nat :=
  if ndbtab.getExtraMetadataResult ≠ 0 then 0
  else ndbtab.extraMetadataVersion

/-- ndb_table_has_hidden_pk (lines 103-122): true when the table has
exactly one primary key and the column named "$PK" exists and passes the
six-attribute check; the null column pointer is guarded by the match. -/
def ndb_table_has_hidden_pk (ndbtab : TableHandle) : Bool :=
  let hidden_pk_name := "$PK"
  if ndbtab.getNoOfPrimaryKeys = 1 then
    match ndbtab.getColumnByName hidden_pk_name with
    | some ndbcol =>
        ndbcol.getType = ColumnType.Bigunsigned ∧
        ndbcol.getLength = 1 ∧
        ndbcol.getNullable = false ∧
        ndbcol.getPrimaryKey = true ∧
        ndbcol.getAutoIncrement = true ∧
        ndbcol.defaultValue = none
    | none => false
  else false

/-- ndb_dict_check_NDB_error (lines 194-198): dict->getNdbError().code != 0,
applied to the error code observed on the dictionary handle. -/
def ndb_dict_check_NDB_error (code : Nat) : Bool :=
  code ≠ 0

/-- ndb_table_tablespace_name, std::string overload (lines 169-191): return
the direct name when non-empty; otherwise, when a tablespace id is present,
resolve it via the dictionary and keep the resolved name only when the
dictionary reports no error, else keep the empty string. -/
def ndb_table_tablespace_name (dict : Dictionary) (ndbtab : TableHandle) :
    String :=
  let tablespace_name := ndbtab.getTablespaceName
  if tablespace_name.isEmpty then
    match ndbtab.getTablespaceId with
    | some tablespace_id =>
        let ts := dict.getTablespaceById tablespace_id
        if ndb_dict_check_NDB_error ts.2 = false then ts.1
        else tablespace_name
    | none => tablespace_name
  else tablespace_name

/-- std::unordered_set<std::string>::insert: add the name unless already
present (membership is what the callers observe). -/
def insertSet (s : List String) (x : String) : List String :=
  if x ∈ s then s else s ++ [x]

/-- ndb_get_logfile_group_names (lines 201-216): on listObjects failure
return false leaving the set untouched, else insert every element name. -/
def ndb_get_logfile_group_names (dict : Dictionary)
    (lfg_names : List String) : Bool × List String :=
  match dict.listLogfileGroups with
  | none => (false, lfg_names)
  | some lfg_list =>
      (true, lfg_list.foldl (fun acc elmt => insertSet acc elmt.name)
        lfg_names)

/-- ndb_get_tablespace_names (lines 219-236): same shape over the
tablespace listing. -/
def ndb_get_tablespace_names (dict : Dictionary)
    (tablespace_names : List String) : Bool × List String :=
  match dict.listTablespaces with
  | none => (false, tablespace_names)
  | some tablespace_list =>
      (true, tablespace_list.foldl (fun acc elmt => insertSet acc elmt.name)
        tablespace_names)

/-- ndb_get_table_names_in_schema (lines 239-276): over the user-table
listing, skip elements of another schema, skip reserved names (temp, blob
backing, index-stat), and insert the name when the state is StateOnline,
ObsoleteStateBackup or StateBuilding. -/
def ndb_get_table_names_in_schema (nr : NameRules) (dict : Dictionary)
    (schema_name : String) (table_names : List String) :
    Bool × List String :=
  match dict.listUserTables with
  | none => (false, table_names)
  | some list =>
      (true, list.foldl (fun acc elmt =>
        if schema_name ≠ elmt.database then acc
        else if nr.is_temp elmt.name ∨ nr.is_blob elmt.name ∨
            nr.is_index_stat elmt.name then acc
        else if elmt.state = ObjState.StateOnline ∨
            elmt.state = ObjState.ObsoleteStateBackup ∨
            elmt.state = ObjState.StateBuilding then insertSet acc elmt.name
        else acc) table_names)

/-- ndb_get_undofile_names (lines 279-299): over the undofile listing,
resolve each undofile's logfile group via getUndofile and push_back the
undofile name exactly when the resolved group equals the target string. -/
def ndb_get_undofile_names (dict : Dictionary)
    (logfile_group_name : String) (undofile_names : List String) :
    Bool × List String :=
  match dict.listUndofiles with
  | none => (false, undofile_names)
  | some undofile_list =>
      (true, undofile_list.foldl (fun acc elmt =>
        if logfile_group_name = dict.getUndofileGroup elmt.name then
          acc ++ [elmt.name]
        else acc) undofile_names)

/-- ndb_get_datafile_names (lines 302-322): symmetric to the undofile
enumeration with tablespaces in place of logfile groups. -/
def ndb_get_datafile_names (dict : Dictionary)
    (tablespace_name : String) (datafile_names : List String) :
    Bool × List String :=
  match dict.listDatafiles with
  | none => (false, datafile_names)
  | some datafile_list =>
      (true, datafile_list.foldl (fun acc elmt =>
        if tablespace_name = dict.getDatafileTablespace elmt.name then
          acc ++ [elmt.name]
        else acc) datafile_names)

/-- ndb_get_database_names_in_dictionary (lines 325-354): over the
user-table listing, skip elements whose state is neither StateOnline nor
StateBuilding and elements with temp or blob-backing names (index-stat
names are NOT filtered here), and insert the owning database name of the
rest. -/
def ndb_get_database_names_in_dictionary (nr : NameRules)
    (dict : Dictionary) (database_names : List String) :
    Bool × List String :=
  match dict.listUserTables with
  | none => (false, database_names)
  | some list =>
      (true, list.foldl (fun acc elmt =>
        if (elmt.state ≠ ObjState.StateOnline ∧
            elmt.state ≠ ObjState.StateBuilding) ∨
            nr.is_temp elmt.name ∨ nr.is_blob elmt.name then acc
        else insertSet acc elmt.database) database_names)

/-! ### Helper lemmas -/

theorem mem_insertSet (s : List String) (x d : String) :
    d ∈ insertSet s x ↔ d ∈ s ∨ d = x := by
  unfold insertSet
  split
  · constructor
    · exact fun h => Or.inl h
    · rintro (h | rfl)
      · exact h
      · assumption
  · simp

theorem mem_foldl_insert_of_step (step : List String → Element → List String)
    (p : Element → Prop) [DecidablePred p] (f : Element → String)
    (hstep : ∀ acc e, step acc e = if p e then insertSet acc (f e) else acc)
    (l : List Element) (init : List String) (d : String) :
    d ∈ l.foldl step init ↔ d ∈ init ∨ ∃ e, e ∈ l ∧ p e ∧ f e = d := by
  induction l generalizing init with
  | nil => simp
  | cons e tl ih =>
      rw [List.foldl_cons, hstep]
      by_cases h : p e
      · rw [if_pos h, ih, mem_insertSet]
        simp only [List.mem_cons]
        constructor
        · rintro ((hd | rfl) | ⟨e2, he2, hp2, hf2⟩)
          · exact Or.inl hd
          · exact Or.inr ⟨e, Or.inl rfl, h, rfl⟩
          · exact Or.inr ⟨e2, Or.inr he2, hp2, hf2⟩
        · rintro (hd | ⟨e2, (rfl | he2), hp2, hf2⟩)
          · exact Or.inl (Or.inl hd)
          · exact Or.inl (Or.inr hf2.symm)
          · exact Or.inr ⟨e2, he2, hp2, hf2⟩
      · rw [if_neg h, ih]
        simp only [List.mem_cons]
        constructor
        · rintro (hd | ⟨e2, he2, hp2, hf2⟩)
          · exact Or.inl hd
          · exact Or.inr ⟨e2, Or.inr he2, hp2, hf2⟩
        · rintro (hd | ⟨e2, (rfl | he2), hp2, hf2⟩)
          · exact Or.inl hd
          · exact absurd hp2 h
          · exact Or.inr ⟨e2, he2, hp2, hf2⟩

theorem foldl_pushback_of_step (step : List String → Element → List String)
    (p : Element → Prop) [DecidablePred p]
    (hstep : ∀ acc e, step acc e = if p e then acc ++ [e.name] else acc)
    (l : List Element) (init : List String) :
    l.foldl step init =
      init ++ (l.filter (fun e => decide (p e))).map Element.name := by
  induction l generalizing init with
  | nil => simp
  | cons e tl ih =>
      rw [List.foldl_cons, hstep]
      by_cases h : p e
      · rw [if_pos h, ih]
        simp [h, List.append_assoc]
      · rw [if_neg h, ih]
        simp [h]

/-! ### Claim theorems -/

/-- C1: For a column of declared length L (within the 512-byte buffer
contract) and a source of length s with s ≤ L minus the prefix bytes of the
storage kind: fixed packing writes exactly the s source bytes at offset 0
and leaves every other buffer position unchanged (no prefix); short-variable
packing writes one prefix byte equal to s mod 256 at offset 0 then the s
source bytes from offset 1; medium-variable packing writes a 2-byte
little-endian prefix holding exactly s at offsets 0..1 then the s source
bytes from offset 2; in each case all positions past the written region keep
their previous contents. -/
theorem c1_pack_varchar_layout (col : Column) (buf str : Nat → Nat) (s : Nat)
    (hL : col.getLength ≤ 512) :
    (col.getArrayType = ArrayType.ArrayTypeFixed → s ≤ col.getLength →
      (∀ i, i < s → ndb_pack_varchar col buf str s i = str i) ∧
      (∀ i, s ≤ i → ndb_pack_varchar col buf str s i = buf i)) ∧
    (col.getArrayType = ArrayType.ArrayTypeShortVar → s + 1 ≤ col.getLength →
      ndb_pack_varchar col buf str s 0 = s % 256 ∧
      (∀ i, i < s → ndb_pack_varchar col buf str s (1 + i) = str i) ∧
      (∀ i, 1 + s ≤ i → ndb_pack_varchar col buf str s i = buf i)) ∧
    (col.getArrayType = ArrayType.ArrayTypeMediumVar → s + 2 ≤ col.getLength →
      ndb_pack_varchar col buf str s 0 + 256 * ndb_pack_varchar col buf str s 1 = s ∧
      (∀ i, i < s → ndb_pack_varchar col buf str s (2 + i) = str i) ∧
      (∀ i, 2 + s ≤ i → ndb_pack_varchar col buf str s i = buf i)) := by
  refine ⟨fun ha hs => ⟨fun i hi => ?_, fun i hi => ?_⟩,
    fun ha hs => ⟨?_, fun i hi => ?_, fun i hi => ?_⟩,
    fun ha hs => ⟨?_, fun i hi => ?_, fun i hi => ?_⟩⟩ <;>
    simp only [ndb_pack_varchar, ha, memcpy, int2store]
  case refine_6 =>
    have h1 : s % 65536 = s := Nat.mod_eq_of_lt (by omega)
    have h2 : s / 256 % 256 = s / 256 := Nat.mod_eq_of_lt (by omega)
    rw [h1, h2]
    split_ifs <;> first | contradiction | omega
  all_goals
    split_ifs <;>
    first
      | rfl
      | omega
      | (congr 1; omega)
      | (exfalso; omega)

/-- C1 witness: the medium-variable case at L = 510, s = 3 (prefix bytes
reassemble to 3), the short-variable case at s = 3 (prefix byte 3), and the
fixed case copying byte 0. -/
theorem c1_pack_varchar_layout_witness :
    ndb_pack_varchar
        ⟨510, ArrayType.ArrayTypeMediumVar, ColumnType.Varchar, true, false,
          false, none⟩ (fun _ => 7) (fun i => i + 40) 3 0 +
      256 * ndb_pack_varchar
        ⟨510, ArrayType.ArrayTypeMediumVar, ColumnType.Varchar, true, false,
          false, none⟩ (fun _ => 7) (fun i => i + 40) 3 1 = 3 ∧
    ndb_pack_varchar
        ⟨255, ArrayType.ArrayTypeShortVar, ColumnType.Varchar, true, false,
          false, none⟩ (fun _ => 7) (fun i => i + 40) 3 0 = 3 % 256 ∧
    ndb_pack_varchar
        ⟨4, ArrayType.ArrayTypeFixed, ColumnType.Varchar, true, false,
          false, none⟩ (fun _ => 7) (fun i => i + 40) 3 0 = 40 :=
  ⟨((c1_pack_varchar_layout _ (fun _ => 7) (fun i => i + 40) 3
      (by decide)).2.2 rfl (by decide)).1,
   ((c1_pack_varchar_layout _ (fun _ => 7) (fun i => i + 40) 3
      (by decide)).2.1 rfl (by decide)).1,
   ((c1_pack_varchar_layout _ (fun _ => 7) (fun i => i + 40) 3
      (by decide)).1 rfl (by decide)).1 0 (by decide)⟩

/-- C9: the pack operation contains no defensive check of the precondition
that the declared column length fits the 512-byte buffer: on a column whose
declared length violates it (512 < L), the result is byte-for-byte the same
as for any column of the same storage kind, and the operation still writes
the prefix and source bytes according to the storage kind. -/
theorem c9_pack_varchar_unchecked (col col2 : Column) (buf str : Nat → Nat)
    (s : Nat) (hviol : 512 < col.getLength)
    (hsame : col2.getArrayType = col.getArrayType) :
    ndb_pack_varchar col buf str s = ndb_pack_varchar col2 buf str s ∧
    (col.getArrayType = ArrayType.ArrayTypeFixed →
      ∀ i, i < s → ndb_pack_varchar col buf str s i = str i) ∧
    (col.getArrayType = ArrayType.ArrayTypeShortVar →
      ndb_pack_varchar col buf str s 0 = s % 256 ∧
      ∀ i, i < s → ndb_pack_varchar col buf str s (1 + i) = str i) ∧
    (col.getArrayType = ArrayType.ArrayTypeMediumVar →
      ndb_pack_varchar col buf str s 0 = s % 65536 % 256 ∧
      ∀ i, i < s → ndb_pack_varchar col buf str s (2 + i) = str i) := by
  refine ⟨?_, fun ha i hi => ?_, fun ha => ⟨?_, fun i hi => ?_⟩,
    fun ha => ⟨?_, fun i hi => ?_⟩⟩
  · simp only [ndb_pack_varchar, hsame]
  all_goals simp only [ndb_pack_varchar, ha, memcpy, int2store]
  all_goals
    split_ifs <;>
    first
      | rfl
      | contradiction
      | omega
      | (congr 1; omega)
      | (exfalso; omega)

/-- C9 witness: a column declaring length 1000 (violating the 512-byte
contract) still packs like a conforming short-variable column: prefix byte
3 and first source byte written. -/
theorem c9_pack_varchar_unchecked_witness :
    ndb_pack_varchar
        ⟨1000, ArrayType.ArrayTypeShortVar, ColumnType.Varchar, true, false,
          false, none⟩ (fun _ => 7) (fun i => i + 40) 3 =
      ndb_pack_varchar
        ⟨255, ArrayType.ArrayTypeShortVar, ColumnType.Varchar, true, false,
          false, none⟩ (fun _ => 7) (fun i => i + 40) 3 ∧
    ndb_pack_varchar
        ⟨1000, ArrayType.ArrayTypeShortVar, ColumnType.Varchar, true, false,
          false, none⟩ (fun _ => 7) (fun i => i + 40) 3 0 = 3 % 256 :=
  ⟨(c9_pack_varchar_unchecked _ _ (fun _ => 7) (fun i => i + 40) 3
      (by decide) rfl).1,
   ((c9_pack_varchar_unchecked
      ⟨1000, ArrayType.ArrayTypeShortVar, ColumnType.Varchar, true, false,
        false, none⟩
      ⟨255, ArrayType.ArrayTypeShortVar, ColumnType.Varchar, true, false,
        false, none⟩ (fun _ => 7) (fun i => i + 40) 3
      (by decide) rfl).2.2.1 rfl).1⟩

/-- C4: the has-hidden-primary-key predicate is true exactly when the table
has exactly one primary-key column and the column looked up under the
reserved name "$PK" exists and satisfies all six attribute conditions
(Bigunsigned type, length 1, non-nullable, primary-key flag, auto-increment,
no default value); consequently negating any single condition makes it
false. -/
theorem c4_has_hidden_pk_iff (t : TableHandle) :
    ndb_table_has_hidden_pk t = true ↔
      (t.getNoOfPrimaryKeys = 1 ∧ ∃ c, t.getColumnByName "$PK" = some c ∧
        c.getType = ColumnType.Bigunsigned ∧ c.getLength = 1 ∧
        c.getNullable = false ∧ c.getPrimaryKey = true ∧
        c.getAutoIncrement = true ∧ c.defaultValue = none) := by
  unfold ndb_table_has_hidden_pk
  by_cases h1 : t.getNoOfPrimaryKeys = 1
  · rw [if_pos h1]
    cases hc : t.getColumnByName "$PK" with
    | none => simp [hc, h1]
    | some c =>
        simp only [hc, decide_eq_true_eq, h1, true_and]
        constructor
        · intro h
          exact ⟨c, rfl, h⟩
        · rintro ⟨c2, hc2, h⟩
          cases hc2
          exact h
  · rw [if_neg h1]
    simp [h1]

/-- C10: when the table reports exactly one primary key but the lookup of
the reserved "$PK" column yields no column, the predicate returns false
(the missing column is guarded before any attribute is accessed: the
embedding reads attributes only in the some-branch of the lookup). -/
theorem c10_has_hidden_pk_missing_column (t : TableHandle)
    (h1 : t.getNoOfPrimaryKeys = 1)
    (h2 : t.getColumnByName "$PK" = none) :
    ndb_table_has_hidden_pk t = false := by
  unfold ndb_table_has_hidden_pk
  rw [if_pos h1, h2]

/-- C10 witness: a one-primary-key table with no "$PK" column. -/
theorem c10_has_hidden_pk_missing_column_witness :
    ndb_table_has_hidden_pk ⟨1, fun _ => none, "", none, 0, 0⟩ = false :=
  c10_has_hidden_pk_missing_column ⟨1, fun _ => none, "", none, 0, 0⟩ rfl rfl

/-- C8: the extra-metadata version reader returns 0 whenever the underlying
getExtraMetadata call reports a nonzero result code, and returns the
retrieved version tag when the result code is 0; being a total function
into Nat it signals no error, so 0 is also what a table whose metadata
version is legitimately 0 yields. -/
theorem c8_extra_metadata_version (t : TableHandle) :
    (t.getExtraMetadataResult ≠ 0 → ndb_get_extra_metadata_version t = 0) ∧
    (t.getExtraMetadataResult = 0 →
      ndb_get_extra_metadata_version t = t.extraMetadataVersion) := by
  unfold ndb_get_extra_metadata_version
  constructor
  · intro h
    rw [if_pos h]
  · intro h
    rw [if_neg (by simp [h])]

/-- C8 witness: a failing retrieval (code 1) collapses version 42 to 0,
while a successful retrieval (code 0) returns 42; both inputs give the
caller a bare Nat. -/
theorem c8_extra_metadata_version_witness :
    ndb_get_extra_metadata_version ⟨0, fun _ => none, "", none, 1, 42⟩ = 0 ∧
    ndb_get_extra_metadata_version ⟨0, fun _ => none, "", none, 0, 42⟩ = 42 :=
  ⟨(c8_extra_metadata_version ⟨0, fun _ => none, "", none, 1, 42⟩).1
      (by decide),
   (c8_extra_metadata_version ⟨0, fun _ => none, "", none, 0, 42⟩).2 rfl⟩

/-- C6: the name-with-fallback tablespace lookup returns the direct name
when it is non-empty, and then does not consult the dictionary at all (the
result is the same for any two dictionaries); when the direct name is empty
and a tablespace id is present, it returns the name resolved by the
secondary dictionary query when the dictionary reports error code 0, and
the empty string when the dictionary reports a nonzero error code — the
error itself is never propagated. -/
theorem c6_tablespace_name_fallback (dict dict2 : Dictionary)
    (t : TableHandle) :
    (t.getTablespaceName ≠ "" →
      ndb_table_tablespace_name dict t = t.getTablespaceName ∧
      ndb_table_tablespace_name dict t = ndb_table_tablespace_name dict2 t) ∧
    (t.getTablespaceName = "" → ∀ id, t.getTablespaceId = some id →
      ((dict.getTablespaceById id).2 = 0 →
        ndb_table_tablespace_name dict t = (dict.getTablespaceById id).1) ∧
      ((dict.getTablespaceById id).2 ≠ 0 →
        ndb_table_tablespace_name dict t = "")) := by
  constructor
  · intro h
    have he : t.getTablespaceName.isEmpty = false := by
      rw [Bool.eq_false_iff]
      intro hemp
      exact h (String.isEmpty_iff t.getTablespaceName |>.mp hemp)
    constructor <;> simp [ndb_table_tablespace_name, he]
  · intro h id hid
    have he : t.getTablespaceName.isEmpty = true :=
      (String.isEmpty_iff t.getTablespaceName).mpr h
    have hemp : "".isEmpty = true := rfl
    constructor <;> intro herr <;>
      simp [ndb_table_tablespace_name, he, hid, ndb_dict_check_NDB_error,
        herr, h, hemp]

/-- C6 witness: the spec example — raw name empty, id 7, service resolving
7 to "ts_alpha" with error code 0 gives "ts_alpha"; the same with error
code 9 gives the empty string; and a non-empty raw name "ts_raw" is
returned as is. -/
theorem c6_tablespace_name_fallback_witness :
    ndb_table_tablespace_name
        ⟨none, none, none, none, none, fun _ => "", fun _ => "",
          fun _ => ("ts_alpha", 0)⟩ ⟨0, fun _ => none, "", some 7, 0, 0⟩ =
      "ts_alpha" ∧
    ndb_table_tablespace_name
        ⟨none, none, none, none, none, fun _ => "", fun _ => "",
          fun _ => ("ts_alpha", 9)⟩ ⟨0, fun _ => none, "", some 7, 0, 0⟩ =
      "" ∧
    ndb_table_tablespace_name
        ⟨none, none, none, none, none, fun _ => "", fun _ => "",
          fun _ => ("ts_alpha", 9)⟩ ⟨0, fun _ => none, "ts_raw", some 7, 0,
          0⟩ = "ts_raw" :=
  ⟨((c6_tablespace_name_fallback
      ⟨none, none, none, none, none, fun _ => "", fun _ => "",
        fun _ => ("ts_alpha", 0)⟩
      ⟨none, none, none, none, none, fun _ => "", fun _ => "",
        fun _ => ("ts_alpha", 0)⟩
      ⟨0, fun _ => none, "", some 7, 0, 0⟩).2 rfl 7 rfl).1 rfl,
   ((c6_tablespace_name_fallback
      ⟨none, none, none, none, none, fun _ => "", fun _ => "",
        fun _ => ("ts_alpha", 9)⟩
      ⟨none, none, none, none, none, fun _ => "", fun _ => "",
        fun _ => ("ts_alpha", 9)⟩
      ⟨0, fun _ => none, "", some 7, 0, 0⟩).2 rfl 7 rfl).2 (by decide),
   ((c6_tablespace_name_fallback
      ⟨none, none, none, none, none, fun _ => "", fun _ => "",
        fun _ => ("ts_alpha", 9)⟩
      ⟨none, none, none, none, none, fun _ => "", fun _ => "",
        fun _ => ("ts_alpha", 9)⟩
      ⟨0, fun _ => none, "ts_raw", some 7, 0, 0⟩).1 (by decide)).1⟩

/-- C5: for each of the six dictionary listing queries (logfile-group
names, tablespace names, table names in schema, undofile names, datafile
names, database names), a failing initial listObjects request makes the
operation return false with the caller-supplied output collection exactly
as it was. -/
theorem c5_listing_failure_no_partial_results (nr : NameRules)
    (dict : Dictionary) (schema target ts : String)
    (s1 s2 s3 s6 v4 v5 : List String) :
    (dict.listLogfileGroups = none →
      ndb_get_logfile_group_names dict s1 = (false, s1)) ∧
    (dict.listTablespaces = none →
      ndb_get_tablespace_names dict s2 = (false, s2)) ∧
    (dict.listUserTables = none →
      ndb_get_table_names_in_schema nr dict schema s3 = (false, s3)) ∧
    (dict.listUndofiles = none →
      ndb_get_undofile_names dict target v4 = (false, v4)) ∧
    (dict.listDatafiles = none →
      ndb_get_datafile_names dict ts v5 = (false, v5)) ∧
    (dict.listUserTables = none →
      ndb_get_database_names_in_dictionary nr dict s6 = (false, s6)) := by
  refine ⟨fun h => ?_, fun h => ?_, fun h => ?_, fun h => ?_, fun h => ?_,
    fun h => ?_⟩
  · unfold ndb_get_logfile_group_names
    rw [h]
  · unfold ndb_get_tablespace_names
    rw [h]
  · unfold ndb_get_table_names_in_schema
    rw [h]
  · unfold ndb_get_undofile_names
    rw [h]
  · unfold ndb_get_datafile_names
    rw [h]
  · unfold ndb_get_database_names_in_dictionary
    rw [h]

/-- C5 witness: a dictionary whose every listing request fails leaves the
concrete collections ["x"] and ["y"] untouched in all six operations. -/
theorem c5_listing_failure_no_partial_results_witness :
    ndb_get_logfile_group_names
        ⟨none, none, none, none, none, fun _ => "", fun _ => "",
          fun _ => ("", 0)⟩ ["x"] = (false, ["x"]) ∧
    ndb_get_tablespace_names
        ⟨none, none, none, none, none, fun _ => "", fun _ => "",
          fun _ => ("", 0)⟩ ["x"] = (false, ["x"]) ∧
    ndb_get_table_names_in_schema
        ⟨fun _ => false, fun _ => false, fun _ => false⟩
        ⟨none, none, none, none, none, fun _ => "", fun _ => "",
          fun _ => ("", 0)⟩ "db" ["x"] = (false, ["x"]) ∧
    ndb_get_undofile_names
        ⟨none, none, none, none, none, fun _ => "", fun _ => "",
          fun _ => ("", 0)⟩ "lg" ["y"] = (false, ["y"]) ∧
    ndb_get_datafile_names
        ⟨none, none, none, none, none, fun _ => "", fun _ => "",
          fun _ => ("", 0)⟩ "ts" ["y"] = (false, ["y"]) ∧
    ndb_get_database_names_in_dictionary
        ⟨fun _ => false, fun _ => false, fun _ => false⟩
        ⟨none, none, none, none, none, fun _ => "", fun _ => "",
          fun _ => ("", 0)⟩ ["x"] = (false, ["x"]) := by
  have h := c5_listing_failure_no_partial_results
    ⟨fun _ => false, fun _ => false, fun _ => false⟩
    ⟨none, none, none, none, none, fun _ => "", fun _ => "",
      fun _ => ("", 0)⟩ "db" "lg" "ts" ["x"] ["x"] ["x"] ["x"] ["y"] ["y"]
  exact ⟨h.1 rfl, h.2.1 rfl, h.2.2.1 rfl, h.2.2.2.1 rfl, h.2.2.2.2.1 rfl,
    h.2.2.2.2.2 rfl⟩

/-- C3: on a successful listing, the table-names-in-schema operation
returns true, and a name is in the output set exactly when it was already
there or some listed element carries it and has the target owning schema
(exact equality), a name matching none of the temporary / blob-backing /
index-statistics predicates, and state StateOnline, ObsoleteStateBackup
(legacy backup marker) or StateBuilding. -/
theorem c3_table_names_in_schema_spec (nr : NameRules) (dict : Dictionary)
    (schema_name : String) (init : List String) (l : List Element)
    (hl : dict.listUserTables = some l) :
    (ndb_get_table_names_in_schema nr dict schema_name init).1 = true ∧
    ∀ d, d ∈ (ndb_get_table_names_in_schema nr dict schema_name init).2 ↔
      d ∈ init ∨ ∃ e, e ∈ l ∧ schema_name = e.database ∧
        nr.is_temp e.name = false ∧ nr.is_blob e.name = false ∧
        nr.is_index_stat e.name = false ∧
        (e.state = ObjState.StateOnline ∨
         e.state = ObjState.ObsoleteStateBackup ∨
         e.state = ObjState.StateBuilding) ∧ e.name = d := by
  simp only [ndb_get_table_names_in_schema, hl]
  refine ⟨trivial, fun d => ?_⟩
  rw [mem_foldl_insert_of_step
    (fun acc elmt =>
      if schema_name ≠ elmt.database then acc
      else if nr.is_temp elmt.name ∨ nr.is_blob elmt.name ∨
          nr.is_index_stat elmt.name then acc
      else if elmt.state = ObjState.StateOnline ∨
          elmt.state = ObjState.ObsoleteStateBackup ∨
          elmt.state = ObjState.StateBuilding then insertSet acc elmt.name
      else acc)
    (fun elmt =>
      ¬ schema_name ≠ elmt.database ∧
      ¬ (nr.is_temp elmt.name ∨ nr.is_blob elmt.name ∨
        nr.is_index_stat elmt.name) ∧
      (elmt.state = ObjState.StateOnline ∨
       elmt.state = ObjState.ObsoleteStateBackup ∨
       elmt.state = ObjState.StateBuilding))
    (fun elmt => elmt.name)
    (fun acc e => by dsimp only; split_ifs <;> first | rfl | tauto)
    l init d]
  simp only [ne_eq, not_not, not_or, Bool.not_eq_true]
  aesop

/-- C3 witness: the spec example listing — ("t1","db1",Online),
("__temp_t2","db1",Online), ("t3","db2",Online), ("t4","db1",Dropping)
with "__temp_t2" recognized as a temp name — queried for schema "db1"
contains "t1" and none of the other names. -/
theorem c3_table_names_in_schema_spec_witness :
    "t1" ∈ (ndb_get_table_names_in_schema
        ⟨fun n => n == "__temp_t2", fun _ => false, fun _ => false⟩
        ⟨none, none,
          some [⟨"t1", "db1", ObjState.StateOnline⟩,
            ⟨"__temp_t2", "db1", ObjState.StateOnline⟩,
            ⟨"t3", "db2", ObjState.StateOnline⟩,
            ⟨"t4", "db1", ObjState.StateDropping⟩],
          none, none, fun _ => "", fun _ => "", fun _ => ("", 0)⟩
        "db1" []).2 ∧
    "__temp_t2" ∉ (ndb_get_table_names_in_schema
        ⟨fun n => n == "__temp_t2", fun _ => false, fun _ => false⟩
        ⟨none, none,
          some [⟨"t1", "db1", ObjState.StateOnline⟩,
            ⟨"__temp_t2", "db1", ObjState.StateOnline⟩,
            ⟨"t3", "db2", ObjState.StateOnline⟩,
            ⟨"t4", "db1", ObjState.StateDropping⟩],
          none, none, fun _ => "", fun _ => "", fun _ => ("", 0)⟩
        "db1" []).2 ∧
    "t3" ∉ (ndb_get_table_names_in_schema
        ⟨fun n => n == "__temp_t2", fun _ => false, fun _ => false⟩
        ⟨none, none,
          some [⟨"t1", "db1", ObjState.StateOnline⟩,
            ⟨"__temp_t2", "db1", ObjState.StateOnline⟩,
            ⟨"t3", "db2", ObjState.StateOnline⟩,
            ⟨"t4", "db1", ObjState.StateDropping⟩],
          none, none, fun _ => "", fun _ => "", fun _ => ("", 0)⟩
        "db1" []).2 ∧
    "t4" ∉ (ndb_get_table_names_in_schema
        ⟨fun n => n == "__temp_t2", fun _ => false, fun _ => false⟩
        ⟨none, none,
          some [⟨"t1", "db1", ObjState.StateOnline⟩,
            ⟨"__temp_t2", "db1", ObjState.StateOnline⟩,
            ⟨"t3", "db2", ObjState.StateOnline⟩,
            ⟨"t4", "db1", ObjState.StateDropping⟩],
          none, none, fun _ => "", fun _ => "", fun _ => ("", 0)⟩
        "db1" []).2 := by
  have h := c3_table_names_in_schema_spec
    ⟨fun n => n == "__temp_t2", fun _ => false, fun _ => false⟩
    ⟨none, none,
      some [⟨"t1", "db1", ObjState.StateOnline⟩,
        ⟨"__temp_t2", "db1", ObjState.StateOnline⟩,
        ⟨"t3", "db2", ObjState.StateOnline⟩,
        ⟨"t4", "db1", ObjState.StateDropping⟩],
      none, none, fun _ => "", fun _ => "", fun _ => ("", 0)⟩
    "db1" []
    [⟨"t1", "db1", ObjState.StateOnline⟩,
      ⟨"__temp_t2", "db1", ObjState.StateOnline⟩,
      ⟨"t3", "db2", ObjState.StateOnline⟩,
      ⟨"t4", "db1", ObjState.StateDropping⟩] rfl
  refine ⟨(h.2 "t1").mpr (by decide), fun hm => ?_, fun hm => ?_,
    fun hm => ?_⟩
  · exact absurd ((h.2 "__temp_t2").mp hm) (by decide)
  · exact absurd ((h.2 "t3").mp hm) (by decide)
  · exact absurd ((h.2 "t4").mp hm) (by decide)

/-- C2 (amended): on a successful listing the distinct-database-names
operation returns true, and a schema name is in the output set exactly when
it was already there or it is the owning schema of a listed element whose
state is StateOnline or StateBuilding and whose name matches neither the
temporary nor the blob-storage-backing pattern; the index-statistics
pattern is NOT consulted by this operation. -/
theorem c2_database_names_spec (nr : NameRules) (dict : Dictionary)
    (init : List String) (l : List Element)
    (hl : dict.listUserTables = some l) :
    (ndb_get_database_names_in_dictionary nr dict init).1 = true ∧
    ∀ d, d ∈ (ndb_get_database_names_in_dictionary nr dict init).2 ↔
      d ∈ init ∨ ∃ e, e ∈ l ∧
        (e.state = ObjState.StateOnline ∨
         e.state = ObjState.StateBuilding) ∧
        nr.is_temp e.name = false ∧ nr.is_blob e.name = false ∧
        e.database = d := by
  simp only [ndb_get_database_names_in_dictionary, hl]
  refine ⟨trivial, fun d => ?_⟩
  rw [mem_foldl_insert_of_step
    (fun acc elmt =>
      if (elmt.state ≠ ObjState.StateOnline ∧
          elmt.state ≠ ObjState.StateBuilding) ∨
          nr.is_temp elmt.name ∨ nr.is_blob elmt.name then acc
      else insertSet acc elmt.database)
    (fun elmt =>
      ¬ ((elmt.state ≠ ObjState.StateOnline ∧
          elmt.state ≠ ObjState.StateBuilding) ∨
        nr.is_temp elmt.name ∨ nr.is_blob elmt.name))
    (fun elmt => elmt.database)
    (fun acc e => by dsimp only; split_ifs <;> first | rfl | tauto)
    l init d]
  simp only [ne_eq, not_or, not_and_or, not_not, Bool.not_eq_true]
  aesop

/-- C2 counterexample to the claim as stated: a single online table whose
name is recognized by the index-statistics predicate (and by neither of the
other two) still contributes its owning schema "db1" to the output, because
ndb_get_database_names_in_dictionary never consults the index-statistics
predicate — the claim predicts the empty output set here. -/
theorem c2_database_names_counterexample :
    (NameRules.is_index_stat
      ⟨fun _ => false, fun _ => false, fun n => n == "ndb_index_stat_head"⟩
      "ndb_index_stat_head" = true) ∧
    (NameRules.is_temp
      ⟨fun _ => false, fun _ => false, fun n => n == "ndb_index_stat_head"⟩
      "ndb_index_stat_head" = false) ∧
    (NameRules.is_blob
      ⟨fun _ => false, fun _ => false, fun n => n == "ndb_index_stat_head"⟩
      "ndb_index_stat_head" = false) ∧
    (ndb_get_database_names_in_dictionary
      ⟨fun _ => false, fun _ => false, fun n => n == "ndb_index_stat_head"⟩
      ⟨none, none,
        some [⟨"ndb_index_stat_head", "db1", ObjState.StateOnline⟩],
        none, none, fun _ => "", fun _ => "", fun _ => ("", 0)⟩
      []).2 = ["db1"] := by
  refine ⟨by decide, by decide, by decide, ?_⟩
  decide

/-- C2 witness for the amended claim: the same index-statistics-named
online table does land its schema in the output, while a temp-named online
table does not. -/
theorem c2_database_names_spec_witness :
    "db1" ∈ (ndb_get_database_names_in_dictionary
        ⟨fun n => n == "tmp_t", fun _ => false,
          fun n => n == "ndb_index_stat_head"⟩
        ⟨none, none,
          some [⟨"ndb_index_stat_head", "db1", ObjState.StateOnline⟩,
            ⟨"tmp_t", "db2", ObjState.StateOnline⟩],
          none, none, fun _ => "", fun _ => "", fun _ => ("", 0)⟩
        []).2 ∧
    "db2" ∉ (ndb_get_database_names_in_dictionary
        ⟨fun n => n == "tmp_t", fun _ => false,
          fun n => n == "ndb_index_stat_head"⟩
        ⟨none, none,
          some [⟨"ndb_index_stat_head", "db1", ObjState.StateOnline⟩,
            ⟨"tmp_t", "db2", ObjState.StateOnline⟩],
          none, none, fun _ => "", fun _ => "", fun _ => ("", 0)⟩
        []).2 := by
  have h := c2_database_names_spec
    ⟨fun n => n == "tmp_t", fun _ => false,
      fun n => n == "ndb_index_stat_head"⟩
    ⟨none, none,
      some [⟨"ndb_index_stat_head", "db1", ObjState.StateOnline⟩,
        ⟨"tmp_t", "db2", ObjState.StateOnline⟩],
      none, none, fun _ => "", fun _ => "", fun _ => ("", 0)⟩
    []
    [⟨"ndb_index_stat_head", "db1", ObjState.StateOnline⟩,
      ⟨"tmp_t", "db2", ObjState.StateOnline⟩] rfl
  exact ⟨(h.2 "db1").mpr (by decide),
    fun hm => absurd ((h.2 "db2").mp hm) (by decide)⟩

/-- C7: on a successful undofile listing, the enumeration returns true and
appends to the output sequence exactly the names of the undofiles whose
secondarily-resolved owning logfile-group name is byte-for-byte equal to
the target (String equality, no case folding); membership in the result is
exactly prior membership or such an exact match, so a non-matching or
empty resolved name merely excludes the file and never fails the call. -/
theorem c7_undofile_names_exact_string_match (dict : Dictionary)
    (target : String) (init : List String) (l : List Element)
    (hl : dict.listUndofiles = some l) :
    ndb_get_undofile_names dict target init =
      (true, init ++
        (l.filter fun e => target = dict.getUndofileGroup e.name).map
          Element.name) ∧
    ∀ n, n ∈ (ndb_get_undofile_names dict target init).2 ↔
      n ∈ init ∨ ∃ e, e ∈ l ∧ dict.getUndofileGroup e.name = target ∧
        e.name = n := by
  have hexact : ndb_get_undofile_names dict target init =
      (true, init ++
        (l.filter fun e => target = dict.getUndofileGroup e.name).map
          Element.name) := by
    simp only [ndb_get_undofile_names, hl]
    rw [foldl_pushback_of_step
      (fun acc elmt =>
        if target = dict.getUndofileGroup elmt.name then acc ++ [elmt.name]
        else acc)
      (fun elmt => target = dict.getUndofileGroup elmt.name)
      (fun acc e => rfl) l init]
  refine ⟨hexact, fun n => ?_⟩
  rw [hexact]
  simp only [List.mem_append, List.mem_map, List.mem_filter,
    decide_eq_true_eq]
  constructor
  · rintro (hn | ⟨e, ⟨he, hg⟩, hname⟩)
    · exact Or.inl hn
    · exact Or.inr ⟨e, he, hg.symm, hname⟩
  · rintro (hn | ⟨e, he, hg, hname⟩)
    · exact Or.inl hn
    · exact Or.inr ⟨e, ⟨he, hg.symm⟩, hname⟩

/-- C7 witness: the spec example — undofiles uf1 owned by lg_a and uf2
owned by lg_b; querying lg_a yields exactly ["uf1"], and differently-cased
"LG_A" is not matched by "lg_a". -/
theorem c7_undofile_names_exact_string_match_witness :
    ndb_get_undofile_names
        ⟨none, none, none,
          some [⟨"uf1", "", ObjState.StateOnline⟩,
            ⟨"uf2", "", ObjState.StateOnline⟩],
          none, fun n => if n == "uf1" then "lg_a" else "lg_b",
          fun _ => "", fun _ => ("", 0)⟩ "lg_a" [] = (true, ["uf1"]) ∧
    ndb_get_undofile_names
        ⟨none, none, none,
          some [⟨"uf3", "", ObjState.StateOnline⟩],
          none, fun _ => "LG_A", fun _ => "", fun _ => ("", 0)⟩
        "lg_a" [] = (true, []) := by
  have h1 := c7_undofile_names_exact_string_match
    ⟨none, none, none,
      some [⟨"uf1", "", ObjState.StateOnline⟩,
        ⟨"uf2", "", ObjState.StateOnline⟩],
      none, fun n => if n == "uf1" then "lg_a" else "lg_b",
      fun _ => "", fun _ => ("", 0)⟩ "lg_a" []
    [⟨"uf1", "", ObjState.StateOnline⟩,
      ⟨"uf2", "", ObjState.StateOnline⟩] rfl
  have h2 := c7_undofile_names_exact_string_match
    ⟨none, none, none,
      some [⟨"uf3", "", ObjState.StateOnline⟩],
      none, fun _ => "LG_A", fun _ => "", fun _ => ("", 0)⟩ "lg_a" []
    [⟨"uf3", "", ObjState.StateOnline⟩] rfl
  rw [h1.1, h2.1]
  constructor
  · decide
  · decide

end NdbUtil
